import Mathlib

/-!
Verification of the sentiment scoring and conversation-analysis core of the
CHATBOT-WITH-SENTIMENT-ANALYSIS repository.

The Python source (src/sentiment_analyzer.py, src/chatbot.py) is shallowly
embedded below.  Python floats become rationals (`Rat`); the external VADER
engine is a black-box parameter `engine : String → PolarityScores`; Python
dictionaries with fixed keys become structures; the dictionary returned by
`analyze_conversation`, whose `mood_shift` / `individual_scores` keys are
absent in the empty case, keeps those two fields as `Option`s.
-/

namespace SentimentBot

/-- Output shape of the external lexicon engine:
`polarity_scores(text) -> {compound, pos, neu, neg}` (spec section 6). -/
structure PolarityScores where
  compound : Rat
  pos : Rat
  neu : Rat
  neg : Rat
deriving DecidableEq, Repr

/-- The dictionary returned by `SentimentAnalyzer.analyze_message`
(src/sentiment_analyzer.py lines 35-41). -/
structure ScoredMessage where
  compound : Rat
  positive : Rat
  neutral : Rat
  negative : Rat
  label : String
deriving DecidableEq, Repr

/-- `SentimentAnalyzer._get_sentiment_label` (src/sentiment_analyzer.py
lines 86-100), translated clause by clause. -/
def get_sentiment_label (compound_score : Rat) : String :=
  if compound_score ≥ 5/100 then "Positive"
  else if compound_score ≤ -(5/100) then "Negative"
  else "Neutral"

/-- `SentimentAnalyzer.analyze_message` (src/sentiment_analyzer.py lines
19-41).  The engine call `self.analyzer.polarity_scores(message)` is the
black-box parameter. -/
def analyze_message (engine : String → PolarityScores) (message : String) :
    ScoredMessage :=
  let scores := engine message
  { compound := scores.compound
    positive := scores.pos
    neutral := scores.neu
    negative := scores.neg
    label := get_sentiment_label scores.compound }

/-- `SentimentAnalyzer._detect_mood_shift` (src/sentiment_analyzer.py lines
102-121).  `len(l) // 2` is `Nat` division; `sentiments[:mid]` /
`sentiments[mid:]` are `take` / `drop`. -/
def detect_mood_shift (sentiments : List ScoredMessage) : String :=
  if sentiments.length < 2 then "Insufficient data"
  else
    let mid_point := sentiments.length / 2
    let first_half_avg :=
      ((sentiments.take mid_point).map (fun s => s.compound)).sum / (mid_point : Rat)
    let second_half_avg :=
      ((sentiments.drop mid_point).map (fun s => s.compound)).sum /
        ((sentiments.length - mid_point : Nat) : Rat)
    let diff := second_half_avg - first_half_avg
    if diff > 2/10 then "Improving (conversation became more positive)"
    else if diff < -(2/10) then "Declining (conversation became more negative)"
    else "Stable (consistent mood throughout)"

/-- One step of `sentiment_counts[sentiment['label']] += 1`
(src/sentiment_analyzer.py line 72): increment the entry of an association
list at a key that is present. -/
def bump (counts : List (String × Nat)) (key : String) : List (String × Nat) :=
  counts.map (fun kv => if kv.1 = key then (kv.1, kv.2 + 1) else kv)

/-- The distribution-counting loop of `analyze_conversation`
(src/sentiment_analyzer.py lines 70-72): start from
`{'Positive': 0, 'Neutral': 0, 'Negative': 0}` and bump per message. -/
def count_sentiments (sentiments : List ScoredMessage) : List (String × Nat) :=
  sentiments.foldl (fun counts s => bump counts s.label)
    [("Positive", 0), ("Neutral", 0), ("Negative", 0)]

/-- Round a rational to the nearest integer, ties to even — the behaviour of
Python 3 `round` on an exactly representable value. -/
def roundHalfEven (x : Rat) : Int :=
  let f := ⌊x⌋
  let frac := x - (f : Rat)
  if frac < 1/2 then f
  else if frac > 1/2 then f + 1
  else if f % 2 = 0 then f else f + 1

/-- Python `round(x, 3)` (src/sentiment_analyzer.py line 79). -/
def round3 (x : Rat) : Rat := ((roundHalfEven (x * 1000) : Int) : Rat) / 1000

/-- The dictionary returned by `SentimentAnalyzer.analyze_conversation`.
In the empty case (src/sentiment_analyzer.py lines 55-61) the
`mood_shift` and `individual_scores` keys are absent, hence the `Option`s;
the empty case also returns the empty dict for `sentiment_distribution`,
hence an association list rather than a fixed record of three counts. -/
structure ConversationReport where
  overall_sentiment : String
  compound_score : Rat
  message_count : Nat
  sentiment_distribution : List (String × Nat)
  mood_shift : Option String
  individual_scores : Option (List ScoredMessage)
deriving DecidableEq, Repr

/-- The comprehension `[msg for role, msg in messages if role == 'user']`
(src/sentiment_analyzer.py line 53). -/
def user_texts (messages : List (String × String)) : List String :=
  (messages.filter (fun rm => rm.1 == "user")).map Prod.snd

/-- `SentimentAnalyzer.analyze_conversation` (src/sentiment_analyzer.py
lines 43-84), line by line. -/
def analyze_conversation (engine : String → PolarityScores)
    (messages : List (String × String)) : ConversationReport :=
  let user_messages := user_texts messages
  if user_messages.isEmpty then
    { overall_sentiment := "Neutral"
      compound_score := 0
      message_count := 0
      sentiment_distribution := []
      mood_shift := none
      individual_scores := none }
  else
    let message_sentiments := user_messages.map (analyze_message engine)
    let avg_compound :=
      (message_sentiments.map (fun s => s.compound)).sum /
        (message_sentiments.length : Rat)
    let sentiment_counts := count_sentiments message_sentiments
    let mood_shift := detect_mood_shift message_sentiments
    { overall_sentiment := get_sentiment_label avg_compound
      compound_score := round3 avg_compound
      message_count := user_messages.length
      sentiment_distribution := sentiment_counts
      mood_shift := some mood_shift
      individual_scores := some message_sentiments }

/-! ### Spec-side mood-shift description (spec section 4.2 step 7)

A second definition written from the specification's words, to be compared
with `detect_mood_shift` above, which is written from the source. -/

/-- The spec's closed enumeration for mood shift. -/
inductive MoodShift where
  | insufficient
  | improving
  | declining
  | stable
deriving DecidableEq, Repr

/-- Written from the spec's words (section 4.2 step 7): split the compound
scores at `floor(n/2)`; if `n < 2`, Insufficient; otherwise compare the mean
of the second half with the mean of the first half against ±0.2. -/
def moodShiftSpec (compounds : List Rat) : MoodShift :=
  let n := compounds.length
  if n < 2 then .insufficient
  else
    let mid := n / 2
    let firstAvg := (compounds.take mid).sum / (mid : Rat)
    let secondAvg := (compounds.drop mid).sum / ((n - mid : Nat) : Rat)
    let diff := secondAvg - firstAvg
    if diff > 2/10 then .improving
    else if diff < -(2/10) then .declining
    else .stable

/-- The source's result string for each spec-level mood-shift value. -/
def moodShiftString : MoodShift → String
  | .insufficient => "Insufficient data"
  | .improving => "Improving (conversation became more positive)"
  | .declining => "Declining (conversation became more negative)"
  | .stable => "Stable (consistent mood throughout)"

/-! ### Exception semantics

The Python source contains no try/except: an exception raised while scoring
one message aborts the whole `analyze_conversation` call.  We embed this
with an engine that may fail (`Except`), `mapM` short-circuiting exactly as
the Python list comprehension at src/sentiment_analyzer.py line 64 does. -/

/-- The spec's error taxonomy (spec section 7). -/
inductive ScoreError where
  | invalidInput
  | engineUnavailable (msg : String)
deriving DecidableEq, Repr

/-- `SentimentAnalyzer.analyze_message` under exception semantics: the
engine call may raise, and the error propagates (no handler in the
source, src/sentiment_analyzer.py lines 19-41). -/
def analyze_messageE (engine : String → Except ScoreError PolarityScores)
    (message : String) : Except ScoreError ScoredMessage := do
  let scores ← engine message
  pure
    { compound := scores.compound
      positive := scores.pos
      neutral := scores.neu
      negative := scores.neg
      label := get_sentiment_label scores.compound }

/-- Modelled from the spec: the repository passes the scorer's input
straight to the external VADER engine, which is not part of this
repository's sources; spec sections 4.2 and 7 require that a non-string
input (null/undefined, modelled as `none`) fail immediately with an
InvalidInput error instead of being coerced.  A string input goes through
`analyze_messageE` unchanged. -/
def scoreChecked (engine : String → Except ScoreError PolarityScores)
    (input : Option String) : Except ScoreError ScoredMessage :=
  match input with
  | none => .error .invalidInput
  | some text => analyze_messageE engine text

/-- The comprehension `[self.analyze_message(msg) for msg in user_messages]`
(src/sentiment_analyzer.py line 64) under exception semantics: messages are
scored left to right and the first raised error aborts the whole list. -/
def mapScores (engine : String → Except ScoreError PolarityScores) :
    List String → Except ScoreError (List ScoredMessage)
  | [] => pure []
  | msg :: rest => do
      let s ← analyze_messageE engine msg
      let others ← mapScores engine rest
      pure (s :: others)

/-- `SentimentAnalyzer.analyze_conversation` under exception semantics:
identical to `analyze_conversation` except that scoring a message may
raise, in which case the whole call raises
(src/sentiment_analyzer.py lines 43-84). -/
def analyze_conversationE (engine : String → Except ScoreError PolarityScores)
    (messages : List (String × String)) : Except ScoreError ConversationReport := do
  let user_messages := user_texts messages
  if user_messages.isEmpty then
    pure
      { overall_sentiment := "Neutral"
        compound_score := 0
        message_count := 0
        sentiment_distribution := []
        mood_shift := none
        individual_scores := none }
  else do
    let message_sentiments ← mapScores engine user_messages
    let avg_compound :=
      (message_sentiments.map (fun s => s.compound)).sum /
        (message_sentiments.length : Rat)
    pure
      { overall_sentiment := get_sentiment_label avg_compound
        compound_score := round3 avg_compound
        message_count := user_messages.length
        sentiment_distribution := count_sentiments message_sentiments
        mood_shift := some (detect_mood_shift message_sentiments)
        individual_scores := some message_sentiments }

/-! ### The chatbot session (src/chatbot.py)

`random.choice` is modelled by a choice function `pick : List String →
String` supplied by the environment; the response template lists are the
constants of src/chatbot.py lines 22-56. -/

/-- Response templates for each sentiment label plus greeting/farewell
(src/chatbot.py lines 22-56), keyed exactly as in the source. -/
def responses : List (String × List String) :=
  [("Positive",
    ["That's wonderful to hear! I'm glad you're having a positive experience.",
     "Great! I'm happy to help you further.",
     "Excellent! Your satisfaction is important to us.",
     "That's fantastic! How else can I assist you today?",
     "I'm thrilled to hear that! Let me know if there's anything else."]),
   ("Negative",
    ["I understand your frustration. Let me help resolve this for you.",
     "I apologize for the inconvenience. I'll make sure your concern is addressed.",
     "I'm sorry to hear that. Your feedback is valuable and I want to make this right.",
     "I hear your concerns. Let's work together to find a solution.",
     "I appreciate you bringing this to my attention. How can I improve your experience?"]),
   ("Neutral",
    ["I understand. How can I assist you further?",
     "Thank you for sharing. What else would you like to know?",
     "Got it. Is there anything specific I can help with?",
     "I see. Let me know what you need.",
     "Understood. Feel free to ask me anything."]),
   ("greeting",
    ["Hello! I'm here to help you. How are you doing today?",
     "Hi there! Welcome! What can I do for you?",
     "Greetings! I'm ready to assist you with anything you need.",
     "Hey! Great to chat with you. What's on your mind?"]),
   ("farewell",
    ["Thank you for chatting with me! Have a wonderful day!",
     "Goodbye! Feel free to reach out anytime.",
     "Take care! It was nice talking with you.",
     "Farewell! Hope to chat again soon!"])]

/-- Python `self.responses[key]`; every key used by the source is present. -/
def responsesAt (key : String) : List String :=
  match responses.find? (fun kv => kv.1 == key) with
  | some kv => kv.2
  | none => []

/-- Python `self.responses.get(key, self.responses['Neutral'])`
(src/chatbot.py line 111). -/
def responsesGetOrNeutral (key : String) : List String :=
  match responses.find? (fun kv => kv.1 == key) with
  | some kv => kv.2
  | none => responsesAt "Neutral"

/-- Python `word in message_lower`: substring containment. -/
def containsSub (s w : String) : Bool :=
  (s.toList.tails).any (fun t => w.toList.isPrefixOf t)

/-- `SentimentChatbot._generate_response` (src/chatbot.py lines 82-111),
with `random.choice` replaced by the choice function `pick`. -/
def generate_response (pick : List String → String) (user_name : Option String)
    (message : String) (sentiment_label : String) : String :=
  let message_lower := message.toLower
  if (["hello", "hi", "hey", "greetings"].any (containsSub message_lower)) &&
      user_name.isNone then
    pick (responsesAt "greeting")
  else if ["bye", "goodbye", "farewell", "see you"].any (containsSub message_lower) then
    pick (responsesAt "farewell")
  else if ["problem", "issue", "bug", "error", "broken"].any (containsSub message_lower) then
    "I'm sorry you're experiencing technical difficulties. Can you provide more details so I can help resolve this?"
  else if ["price", "cost", "expensive", "cheap"].any (containsSub message_lower) then
    if sentiment_label == "Negative" then
      "I understand pricing is a concern. Let me see what options might work better for your budget."
    else
      "I'm happy to discuss pricing options that fit your needs."
  else if ["thank", "thanks", "appreciate"].any (containsSub message_lower) then
    "You're very welcome! Is there anything else I can help you with?"
  else
    pick (responsesGetOrNeutral sentiment_label)

/-- The mutable state of `SentimentChatbot` (src/chatbot.py lines 16-19). -/
structure SentimentChatbot where
  conversation_history : List (String × String)
  user_name : Option String
deriving DecidableEq, Repr

/-- `SentimentChatbot.__init__` (src/chatbot.py lines 16-19). -/
def initBot : SentimentChatbot :=
  { conversation_history := [], user_name := none }

/-- `SentimentChatbot.process_message` (src/chatbot.py lines 58-80):
returns the new state together with `(bot_response, sentiment)`. -/
def process_message (engine : String → PolarityScores)
    (pick : List String → String) (bot : SentimentChatbot)
    (user_message : String) : SentimentChatbot × String × ScoredMessage :=
  let sentiment := analyze_message engine user_message
  let history1 := bot.conversation_history ++ [("user", user_message)]
  let bot_response := generate_response pick bot.user_name user_message sentiment.label
  let history2 := history1 ++ [("bot", bot_response)]
  ({ conversation_history := history2, user_name := bot.user_name },
   bot_response, sentiment)

/-- `SentimentChatbot.reset_conversation` (src/chatbot.py lines 121-124). -/
def reset_conversation (_ : SentimentChatbot) : SentimentChatbot :=
  { conversation_history := [], user_name := none }

/-- Run a sequence of user messages through `process_message`, keeping only
the evolving session state. -/
def runMessages (engine : String → PolarityScores)
    (pick : List String → String) (bot : SentimentChatbot)
    (msgs : List String) : SentimentChatbot :=
  msgs.foldl (fun st m => (process_message engine pick st m).1) bot

/-- The history shape guaranteed by C10: pairs of a user turn followed by a
bot turn; `true` forces even length and strict role alternation. -/
def alternatesUserBot : List (String × String) → Bool
  | [] => true
  | [_] => false
  | (r1, _) :: (r2, _) :: rest =>
      r1 == "user" && r2 == "bot" && alternatesUserBot rest

/-- A constant engine assigning every text the compound score `c`
(neutral proportions), used to instantiate universally quantified
statements at concrete inputs. -/
def constEngine (c : Rat) : String → PolarityScores :=
  fun _ => { compound := c, pos := 0, neu := 1, neg := 0 }

/-! ## Helper lemmas -/

theorem get_sentiment_label_pos_iff (c : Rat) :
    get_sentiment_label c = "Positive" ↔ c ≥ 5/100 := by
  unfold get_sentiment_label
  split_ifs with h1 h2 <;> simp_all

theorem get_sentiment_label_neg_iff (c : Rat) :
    get_sentiment_label c = "Negative" ↔ c ≤ -(5/100) := by
  unfold get_sentiment_label
  split_ifs with h1 h2 <;> simp_all
  linarith

theorem get_sentiment_label_neu_iff (c : Rat) :
    get_sentiment_label c = "Neutral" ↔ (-(5/100) < c ∧ c < 5/100) := by
  unfold get_sentiment_label
  split_ifs with h1 h2 <;> simp_all

theorem get_sentiment_label_cases (c : Rat) :
    get_sentiment_label c = "Positive" ∨ get_sentiment_label c = "Neutral" ∨
      get_sentiment_label c = "Negative" := by
  unfold get_sentiment_label
  split_ifs <;> simp

/-- The report built by the `if not user_messages` branch of
`analyze_conversation` (src/sentiment_analyzer.py lines 55-61). -/
def emptyReport : ConversationReport :=
  { overall_sentiment := "Neutral"
    compound_score := 0
    message_count := 0
    sentiment_distribution := []
    mood_shift := none
    individual_scores := none }

theorem user_texts_eq_nil_of_no_user (turns : List (String × String))
    (h : ∀ t ∈ turns, t.1 ≠ "user") : user_texts turns = [] := by
  unfold user_texts
  rw [List.map_eq_nil_iff, List.filter_eq_nil_iff]
  intro a ha
  simp [h a ha]

theorem analyze_conversation_of_nil (engine : String → PolarityScores)
    (turns : List (String × String)) (h : user_texts turns = []) :
    analyze_conversation engine turns = emptyReport := by
  unfold analyze_conversation
  rw [h]
  rfl

theorem bump_three (a b c : Nat) (label : String)
    (h : label = "Positive" ∨ label = "Neutral" ∨ label = "Negative") :
    bump [("Positive", a), ("Neutral", b), ("Negative", c)] label =
      if label = "Positive" then [("Positive", a+1), ("Neutral", b), ("Negative", c)]
      else if label = "Neutral" then [("Positive", a), ("Neutral", b+1), ("Negative", c)]
      else [("Positive", a), ("Neutral", b), ("Negative", c+1)] := by
  rcases h with h | h | h <;> subst h <;> simp [bump]

theorem count_loop (sentiments : List ScoredMessage) :
    ∀ a b c : Nat,
    (∀ s ∈ sentiments, s.label = "Positive" ∨ s.label = "Neutral" ∨ s.label = "Negative") →
    sentiments.foldl (fun counts s => bump counts s.label)
        [("Positive", a), ("Neutral", b), ("Negative", c)] =
      [("Positive", a + sentiments.countP (fun s => s.label == "Positive")),
       ("Neutral", b + sentiments.countP (fun s => s.label == "Neutral")),
       ("Negative", c + sentiments.countP (fun s => s.label == "Negative"))] := by
  induction sentiments with
  | nil => intro a b c _; simp
  | cons s rest ih =>
    intro a b c h
    have hrest : ∀ x ∈ rest, x.label = "Positive" ∨ x.label = "Neutral" ∨ x.label = "Negative" :=
      fun x hx => h x (List.mem_cons_of_mem s hx)
    rcases h s (by simp) with hl | hl | hl
    · rw [List.foldl_cons, bump_three a b c s.label (Or.inl hl), if_pos hl,
        ih (a+1) b c hrest]
      simp [List.countP_cons, hl]
      omega
    · rw [List.foldl_cons, bump_three a b c s.label (Or.inr (Or.inl hl))]
      rw [if_neg (by simp [hl]), if_pos hl, ih a (b+1) c hrest]
      simp [List.countP_cons, hl]
      omega
    · rw [List.foldl_cons, bump_three a b c s.label (Or.inr (Or.inr hl))]
      rw [if_neg (by simp [hl]), if_neg (by simp [hl]), ih a b (c+1) hrest]
      simp [List.countP_cons, hl]
      omega

theorem countP_three_sum (sentiments : List ScoredMessage)
    (h : ∀ s ∈ sentiments, s.label = "Positive" ∨ s.label = "Neutral" ∨ s.label = "Negative") :
    sentiments.countP (fun s => s.label == "Positive") +
    sentiments.countP (fun s => s.label == "Neutral") +
    sentiments.countP (fun s => s.label == "Negative") = sentiments.length := by
  induction sentiments with
  | nil => simp
  | cons s rest ih =>
    have hrest : ∀ x ∈ rest, x.label = "Positive" ∨ x.label = "Neutral" ∨ x.label = "Negative" :=
      fun x hx => h x (List.mem_cons_of_mem s hx)
    have ihh := ih hrest
    rcases h s (by simp) with hl | hl | hl <;>
      simp [List.countP_cons, hl] <;> omega

theorem labels_of_scores (engine : String → PolarityScores) (l : List String) :
    ∀ s ∈ l.map (analyze_message engine),
      s.label = "Positive" ∨ s.label = "Neutral" ∨ s.label = "Negative" := by
  intro s hs
  rcases List.mem_map.mp hs with ⟨m, _, rfl⟩
  exact get_sentiment_label_cases _

theorem user_texts_ne_nil (turns : List (String × String))
    (h : ∃ t ∈ turns, t.1 = "user") : user_texts turns ≠ [] := by
  rcases h with ⟨t, ht, hu⟩
  have hm : t.2 ∈ user_texts turns :=
    List.mem_map_of_mem _ (List.mem_filter.mpr ⟨ht, by simp [hu]⟩)
  intro hnil
  rw [hnil] at hm
  cases hm

theorem mem_user_texts (turns : List (String × String)) (msg : String)
    (hmem : ("user", msg) ∈ turns) : msg ∈ user_texts turns :=
  List.mem_map_of_mem _ (List.mem_filter.mpr ⟨hmem, by simp⟩)

theorem mapScores_error (engine : String → Except ScoreError PolarityScores)
    (l : List String) (msg : String) (e : ScoreError)
    (hmem : msg ∈ l) (herr : analyze_messageE engine msg = .error e) :
    ∃ e2, mapScores engine l = .error e2 ∧
      ∃ m2 ∈ l, analyze_messageE engine m2 = .error e2 := by
  induction l with
  | nil => cases hmem
  | cons x rest ih =>
    cases hx : analyze_messageE engine x with
    | error e3 =>
      exact ⟨e3, by simp only [mapScores, hx]; rfl, x, by simp, hx⟩
    | ok s =>
      rcases List.mem_cons.mp hmem with rfl | hmem2
      · rw [hx] at herr; cases herr
      · rcases ih hmem2 with ⟨e2, he2, m2, hm2, herr2⟩
        exact ⟨e2, by simp only [mapScores, hx, he2]; rfl, m2, by simp [hm2], herr2⟩

/-! ## Claim theorems -/

/-- C1: for every text, the label of the ScoredMessage returned by the
scorer is a pure function of the engine's compound score via fixed
thresholds: Positive iff compound ≥ 0.05, Negative iff compound ≤ -0.05,
Neutral iff strictly between. -/
theorem C1_label_thresholds (engine : String → PolarityScores) (text : String) :
    ((analyze_message engine text).label = "Positive" ↔
      (engine text).compound ≥ 5/100) ∧
    ((analyze_message engine text).label = "Negative" ↔
      (engine text).compound ≤ -(5/100)) ∧
    ((analyze_message engine text).label = "Neutral" ↔
      (-(5/100) < (engine text).compound ∧ (engine text).compound < 5/100)) := by
  refine ⟨?_, ?_, ?_⟩
  · exact get_sentiment_label_pos_iff _
  · exact get_sentiment_label_neg_iff _
  · exact get_sentiment_label_neu_iff _

/-- C2: the source's mood-shift detection agrees with the spec's
description (split at floor(n/2), Insufficient when n < 2, Improving when
diff > 0.2, Declining when diff < -0.2, Stable otherwise), and on the two
concrete instances named by the claim: compounds [-0.8, 0.8] give
Improving, compounds [0.1, 0.05] give Stable. -/
theorem C2_mood_shift (sentiments : List ScoredMessage) :
    detect_mood_shift sentiments =
      moodShiftString (moodShiftSpec (sentiments.map (fun s => s.compound))) ∧
    moodShiftSpec [-(8/10), 8/10] = .improving ∧
    moodShiftSpec [1/10, 5/100] = .stable ∧
    moodShiftSpec [0] = .insufficient := by
  refine ⟨?_, ?_, ?_, ?_⟩
  · unfold detect_mood_shift moodShiftSpec moodShiftString
    simp only [List.length_map, List.map_take, List.map_drop]
    split_ifs <;> rfl
  · unfold moodShiftSpec; norm_num
  · unfold moodShiftSpec; norm_num
  · unfold moodShiftSpec; norm_num

/-- C3: on an input with no User-role turns (the empty sequence included),
analyze returns overallLabel Neutral, meanCompound 0.0, userMessageCount 0,
an empty distribution mapping, and the moodShift / perMessageScores fields
are absent (`none`), not synthesized. -/
theorem C3_no_user_turns (engine : String → PolarityScores)
    (turns : List (String × String)) (h : ∀ t ∈ turns, t.1 ≠ "user") :
    analyze_conversation engine turns =
      { overall_sentiment := "Neutral", compound_score := 0, message_count := 0,
        sentiment_distribution := [], mood_shift := none,
        individual_scores := none } :=
  analyze_conversation_of_nil engine turns (user_texts_eq_nil_of_no_user turns h)

/-- Witness for C3 at the concrete one-bot-turn input. -/
theorem C3_witness :
    analyze_conversation (constEngine 0) [("bot", "hi")] =
      { overall_sentiment := "Neutral", compound_score := 0, message_count := 0,
        sentiment_distribution := [], mood_shift := none,
        individual_scores := none } :=
  C3_no_user_turns (constEngine 0) [("bot", "hi")] (by decide)

/-- C6: analyze on a sequence of Bot-role turns only returns exactly the
report of analyze on the empty sequence. -/
theorem C6_bot_turns_like_empty (engine : String → PolarityScores)
    (turns : List (String × String)) (h : ∀ t ∈ turns, t.1 = "bot") :
    analyze_conversation engine turns = analyze_conversation engine [] := by
  rw [analyze_conversation_of_nil engine turns
      (user_texts_eq_nil_of_no_user turns fun t ht => by rw [h t ht]; decide),
    analyze_conversation_of_nil engine [] rfl]

/-- Witness for C6 at two concrete bot turns. -/
theorem C6_witness :
    analyze_conversation (constEngine 1) [("bot", "a"), ("bot", "b")] =
      analyze_conversation (constEngine 1) [] :=
  C6_bot_turns_like_empty (constEngine 1) [("bot", "a"), ("bot", "b")] (by decide)

/-- C4: for a non-empty list of user messages the report's compound_score
is the arithmetic mean of the per-message compounds rounded to 3 decimals,
while overall_sentiment applies the threshold rule to the unrounded mean;
at the concrete mean 124/2500 = 0.0496 the two orders disagree (unrounded
mean gives Neutral, thresholding the rounded display value would give
Positive), and the code returns Neutral. -/
theorem C4_mean_rounded_label_unrounded (engine : String → PolarityScores)
    (turns : List (String × String)) (h : user_texts turns ≠ []) :
    ((analyze_conversation engine turns).compound_score =
      round3 ((((user_texts turns).map (analyze_message engine)).map
          (fun s => s.compound)).sum / ((user_texts turns).length : Rat)) ∧
     (analyze_conversation engine turns).overall_sentiment =
      get_sentiment_label ((((user_texts turns).map (analyze_message engine)).map
          (fun s => s.compound)).sum / ((user_texts turns).length : Rat))) ∧
    ((analyze_conversation (constEngine (124/2500)) [("user", "x")]).overall_sentiment =
      "Neutral" ∧
     get_sentiment_label
        ((analyze_conversation (constEngine (124/2500)) [("user", "x")]).compound_score) =
      "Positive") := by
  refine ⟨?_, ?_, ?_⟩
  · have hne : (user_texts turns).isEmpty = false := by
      simpa [List.isEmpty_iff] using h
    simp [analyze_conversation, hne, List.length_map]
  · simp [analyze_conversation, user_texts, analyze_message, constEngine, get_sentiment_label]
    norm_num
  · simp [analyze_conversation, user_texts, analyze_message, constEngine, round3,
      roundHalfEven, get_sentiment_label]
    norm_num [Int.fract]

/-- Witness for C4 at one concrete user turn. -/
theorem C4_witness :
    ((analyze_conversation (constEngine 0) [("user", "y")]).compound_score =
      round3 ((((user_texts [("user", "y")]).map (analyze_message (constEngine 0))).map
          (fun s => s.compound)).sum / ((user_texts [("user", "y")]).length : Rat)) ∧
     (analyze_conversation (constEngine 0) [("user", "y")]).overall_sentiment =
      get_sentiment_label ((((user_texts [("user", "y")]).map
          (analyze_message (constEngine 0))).map
          (fun s => s.compound)).sum / ((user_texts [("user", "y")]).length : Rat))) ∧
    ((analyze_conversation (constEngine (124/2500)) [("user", "x")]).overall_sentiment =
      "Neutral" ∧
     get_sentiment_label
        ((analyze_conversation (constEngine (124/2500)) [("user", "x")]).compound_score) =
      "Positive") :=
  C4_mean_rounded_label_unrounded (constEngine 0) [("user", "y")] (by decide)

/-- C5: on an input with at least one User-role turn, the distribution
holds exactly the three keys Positive, Neutral, Negative with the counts of
each label among the per-message scores (0 when unseen), those counts sum
to message_count, and individual_scores is exactly the user texts scored in
input order, with length message_count. -/
theorem C5_distribution_invariants (engine : String → PolarityScores)
    (turns : List (String × String)) (h : ∃ t ∈ turns, t.1 = "user") :
    (analyze_conversation engine turns).sentiment_distribution =
      [("Positive", ((user_texts turns).map (analyze_message engine)).countP
          (fun s => s.label == "Positive")),
       ("Neutral", ((user_texts turns).map (analyze_message engine)).countP
          (fun s => s.label == "Neutral")),
       ("Negative", ((user_texts turns).map (analyze_message engine)).countP
          (fun s => s.label == "Negative"))] ∧
    ((user_texts turns).map (analyze_message engine)).countP
        (fun s => s.label == "Positive") +
      ((user_texts turns).map (analyze_message engine)).countP
        (fun s => s.label == "Neutral") +
      ((user_texts turns).map (analyze_message engine)).countP
        (fun s => s.label == "Negative") =
      (analyze_conversation engine turns).message_count ∧
    (analyze_conversation engine turns).individual_scores =
      some ((user_texts turns).map (analyze_message engine)) ∧
    ((user_texts turns).map (analyze_message engine)).length =
      (analyze_conversation engine turns).message_count := by
  have hne : (user_texts turns).isEmpty = false := by
    simpa [List.isEmpty_iff] using user_texts_ne_nil turns h
  have hlab := labels_of_scores engine (user_texts turns)
  refine ⟨?_, ?_, ?_, ?_⟩
  · simp [analyze_conversation, hne, count_sentiments, count_loop _ 0 0 0 hlab]
  · have hmc : (analyze_conversation engine turns).message_count =
        (user_texts turns).length := by
      simp [analyze_conversation, hne]
    rw [hmc]
    have hsum := countP_three_sum _ hlab
    simpa using hsum
  · simp [analyze_conversation, hne]
  · simp [analyze_conversation, hne, List.length_map]

/-- Witness for C5 at one concrete user turn. -/
theorem C5_witness :
    (analyze_conversation (constEngine 0) [("user", "a")]).sentiment_distribution =
      [("Positive", ((user_texts [("user", "a")]).map
          (analyze_message (constEngine 0))).countP (fun s => s.label == "Positive")),
       ("Neutral", ((user_texts [("user", "a")]).map
          (analyze_message (constEngine 0))).countP (fun s => s.label == "Neutral")),
       ("Negative", ((user_texts [("user", "a")]).map
          (analyze_message (constEngine 0))).countP (fun s => s.label == "Negative"))] ∧
    ((user_texts [("user", "a")]).map (analyze_message (constEngine 0))).countP
        (fun s => s.label == "Positive") +
      ((user_texts [("user", "a")]).map (analyze_message (constEngine 0))).countP
        (fun s => s.label == "Neutral") +
      ((user_texts [("user", "a")]).map (analyze_message (constEngine 0))).countP
        (fun s => s.label == "Negative") =
      (analyze_conversation (constEngine 0) [("user", "a")]).message_count ∧
    (analyze_conversation (constEngine 0) [("user", "a")]).individual_scores =
      some ((user_texts [("user", "a")]).map (analyze_message (constEngine 0))) ∧
    ((user_texts [("user", "a")]).map (analyze_message (constEngine 0))).length =
      (analyze_conversation (constEngine 0) [("user", "a")]).message_count :=
  C5_distribution_invariants (constEngine 0) [("user", "a")]
    ⟨("user", "a"), by simp, rfl⟩

/-- C7: if scoring one user message raises, the whole analyze call raises
an error that the scorer actually produced on one of the user messages —
nothing is caught inside the aggregator and no report is produced. -/
theorem C7_error_propagation (engine : String → Except ScoreError PolarityScores)
    (turns : List (String × String)) (msg : String) (e : ScoreError)
    (hmem : ("user", msg) ∈ turns)
    (herr : analyze_messageE engine msg = .error e) :
    ∃ e2, analyze_conversationE engine turns = .error e2 ∧
      ∃ m2 ∈ user_texts turns, analyze_messageE engine m2 = .error e2 := by
  have hmem2 : msg ∈ user_texts turns := mem_user_texts turns msg hmem
  have hne : (user_texts turns).isEmpty = false := by
    cases h' : user_texts turns
    · rw [h'] at hmem2; cases hmem2
    · simp [h']
  rcases mapScores_error engine _ msg e hmem2 herr with ⟨e2, he2, m2, hm2, herr2⟩
  exact ⟨e2, by simp [analyze_conversationE, hne, he2], m2, hm2, herr2⟩

/-- An engine that raises EngineUnavailable on the text "bad" and scores
everything else 0. -/
def failEngine : String → Except ScoreError PolarityScores :=
  fun s => if s = "bad" then .error (.engineUnavailable "engine down")
           else .ok { compound := 0, pos := 0, neu := 1, neg := 0 }

/-- Witness for C7: a two-user-message conversation whose second message
makes the engine raise. -/
theorem C7_witness :
    ∃ e2, analyze_conversationE failEngine [("user", "ok"), ("user", "bad")] =
        .error e2 ∧
      ∃ m2 ∈ user_texts [("user", "ok"), ("user", "bad")],
        analyze_messageE failEngine m2 = .error e2 :=
  C7_error_propagation failEngine [("user", "ok"), ("user", "bad")] "bad"
    (.engineUnavailable "engine down") (by simp) rfl

/-- C8: a non-string input to the scorer (null/undefined, modelled as
`none`) fails immediately with InvalidInput; a string input is passed
through to the scorer unchanged, never coerced. -/
theorem C8_invalid_input (engine : String → Except ScoreError PolarityScores) :
    scoreChecked engine none = .error .invalidInput ∧
    ∀ s : String, scoreChecked engine (some s) = analyze_messageE engine s :=
  ⟨rfl, fun _ => rfl⟩

/-- C9: scoring the empty string does not fail: it goes through the engine
like any other text and is labelled from the engine's compound by the
threshold rule; compound 0.0 yields Neutral. -/
theorem C9_empty_string_ok (engine : String → Except ScoreError PolarityScores)
    (p : PolarityScores) (hp : engine "" = .ok p) :
    scoreChecked engine (some "") =
      .ok { compound := p.compound, positive := p.pos, neutral := p.neu,
            negative := p.neg, label := get_sentiment_label p.compound } ∧
    (p.compound = 0 → get_sentiment_label p.compound = "Neutral") := by
  constructor
  · simp only [scoreChecked, analyze_messageE, hp]
    rfl
  · intro h0
    rw [h0]
    unfold get_sentiment_label
    norm_num

/-- Witness for C9 with a concrete engine scoring everything 0. -/
theorem C9_witness :
    scoreChecked (fun _ => .ok { compound := 0, pos := 0, neu := 1, neg := 0 })
        (some "") =
      .ok { compound := 0, positive := 0, neutral := 1, negative := 0,
            label := get_sentiment_label 0 } ∧
    ((0 : Rat) = 0 → get_sentiment_label 0 = "Neutral") :=
  C9_empty_string_ok (fun _ => .ok { compound := 0, pos := 0, neu := 1, neg := 0 })
    { compound := 0, pos := 0, neu := 1, neg := 0 } rfl

theorem alternates_append (h : List (String × String)) (m r : String)
    (halt : alternatesUserBot h = true) :
    alternatesUserBot (h ++ [("user", m), ("bot", r)]) = true := by
  induction h using alternatesUserBot.induct with
  | case1 => simp [alternatesUserBot]
  | case2 x => simp [alternatesUserBot] at halt
  | case3 r1 t1 r2 t2 rest ih =>
    simp only [alternatesUserBot, Bool.and_eq_true, beq_iff_eq] at halt
    simp only [List.cons_append, alternatesUserBot, Bool.and_eq_true, beq_iff_eq]
    exact ⟨halt.1, ih halt.2⟩

theorem process_message_history (engine : String → PolarityScores)
    (pick : List String → String) (bot : SentimentChatbot) (m : String) :
    (process_message engine pick bot m).1.conversation_history =
      bot.conversation_history ++
        [("user", m), ("bot", (process_message engine pick bot m).2.1)] := by
  simp [process_message]

theorem runMessages_alternates (engine : String → PolarityScores)
    (pick : List String → String) (msgs : List String) :
    ∀ bot : SentimentChatbot, alternatesUserBot bot.conversation_history = true →
      alternatesUserBot (runMessages engine pick bot msgs).conversation_history = true := by
  induction msgs with
  | nil => intro bot h; exact h
  | cons m rest ih =>
    intro bot h
    have hstep : alternatesUserBot
        ((process_message engine pick bot m).1.conversation_history) = true := by
      rw [process_message_history]
      exact alternates_append _ m _ h
    exact ih _ hstep

theorem runMessages_length (engine : String → PolarityScores)
    (pick : List String → String) (msgs : List String) :
    ∀ bot : SentimentChatbot,
      (runMessages engine pick bot msgs).conversation_history.length =
        bot.conversation_history.length + 2 * msgs.length := by
  induction msgs with
  | nil => intro bot; simp [runMessages]
  | cons m rest ih =>
    intro bot
    have hlen := ih (process_message engine pick bot m).1
    rw [process_message_history] at hlen
    simp only [runMessages, List.foldl_cons] at *
    rw [hlen]
    simp
    omega

/-- C10: process_message appends exactly the pair of turns
('user', message) then ('bot', response) to the history, changes nothing
else about the session state, reset returns the fresh session, and from a
fresh or reset session the history after any run of messages alternates
user, bot, user, bot, ... and has even length 2·(number of messages). -/
theorem C10_history_pairs (engine : String → PolarityScores)
    (pick : List String → String) :
    (∀ (bot : SentimentChatbot) (m : String),
      (process_message engine pick bot m).1.conversation_history =
        bot.conversation_history ++
          [("user", m), ("bot", (process_message engine pick bot m).2.1)] ∧
      (process_message engine pick bot m).1.user_name = bot.user_name) ∧
    (∀ bot : SentimentChatbot, reset_conversation bot = initBot) ∧
    (∀ msgs : List String,
      alternatesUserBot
          (runMessages engine pick initBot msgs).conversation_history = true ∧
      (runMessages engine pick initBot msgs).conversation_history.length =
        2 * msgs.length) := by
  refine ⟨fun bot m => ⟨process_message_history engine pick bot m, rfl⟩,
    fun _ => rfl,
    fun msgs => ⟨runMessages_alternates engine pick msgs initBot rfl, ?_⟩⟩
  simpa [initBot] using runMessages_length engine pick msgs initBot

end SentimentBot
